import Mathlib

/-!
Verification of the Chat_PDF retrieval core against its specification.

The development shallowly embeds the JavaScript retrieval core:

* `TextProcessor` (backend/services/textProcessor.js, re-exported through
  `backend/models/Chat.js` in the staged sources): text cleaning, the
  sentence splitter, the overlapping chunker and the multi-page driver.
* `EmbeddingService` (embeddingService.js): TF-IDF fallback embeddings,
  cosine similarity, the primary similarity search and the keyword-overlap
  fallback search.
* `LLMService` (backend/services/llmService.js): the extractive fallback
  answer composer.

Modelling conventions:

* JavaScript strings are Lean `String`s; the handful of string operations
  the code uses (`toLowerCase`, `replace`, `split`, `trim`, `slice`,
  `substring`, `match`) are implemented on `List Char` so that they reduce
  definitionally. All inputs of interest are ASCII, where these agree with
  the JavaScript semantics character for character.
* JavaScript numbers are `ℝ` in the embedding service (where `Math.sqrt`
  and `Math.log` occur) and `ℚ` in the answer composer (which only adds,
  divides and compares). A JavaScript division `0/0` produces `NaN`; a
  value that can be `NaN` is modelled as an `Option` with `none` for `NaN`.
  Every division in the modelled code either has a nonzero denominator or
  a zero numerator, so `none` exactly tracks the `NaN`s the code can make.
* `Array.prototype.sort` is stable (ECMAScript 2019) and is called with the
  comparator `(a, b) => b.similarity - a.similarity`; it is modelled by the
  stable `List.mergeSort` with the matching total `Bool` relation. `NaN`
  similarities never reach a sort: both call sites sort a list already
  filtered by a comparison that `NaN` fails.
* Exceptions (`throw` in `calculateCosineSimilarity` and
  `findSimilarChunks`) are modelled with `Except String`.
-/

namespace ChatPDF

/-! ## Shared character and string helpers -/

/-- The JavaScript regex class `\w`: ASCII letters, digits and underscore. -/
def isWordChar (c : Char) : Bool := c.isAlphanum || c = '_'

/-- The JavaScript regex class `\s` (whitespace), restricted to the ASCII
whitespace that `Char.isWhitespace` recognises. -/
def isSpaceChar (c : Char) : Bool := c.isWhitespace

/-- JavaScript `String.prototype.trim` on the character list. -/
def jsTrimChars (s : List Char) : List Char :=
  ((s.dropWhile isSpaceChar).reverse.dropWhile isSpaceChar).reverse

/-- JavaScript `String.prototype.trim`. -/
def strTrim (s : String) : String := String.mk (jsTrimChars s.data)

/-- Splitting a character list at every character satisfying `sep`
(JavaScript `split` against a single-character class): fragments between
consecutive separators are kept, including empty ones, as JavaScript does. -/
def splitBySep (sep : Char → Bool) (cur : List Char) : List Char → List String
  | [] => [String.mk cur.reverse]
  | c :: cs =>
    if sep c then String.mk cur.reverse :: splitBySep sep [] cs
    else splitBySep sep (c :: cur) cs

/-- JavaScript `s.split(re)` for a single-character separator class. -/
def jsSplit (sep : Char → Bool) (s : String) : List String :=
  splitBySep sep [] s.data

/-- The tokenisation both `calculateTFIDF` and `fallbackSimilaritySearch`
perform: `text.toLowerCase().replace(/[^\w\s]/g, '').split(/\s+/)
.filter(word => word.length > 2)`. Splitting at every whitespace character
instead of at maximal runs only adds empty fragments, which the length
filter removes, exactly as in JavaScript (where a leading run contributes
one empty fragment). -/
def jsTokenize (s : String) : List String :=
  ((jsSplit isSpaceChar
      (String.mk ((s.data.map Char.toLower).filter
        (fun c => isWordChar c || isSpaceChar c)))).filter
    (fun w => 2 < w.length))

/-- First-occurrence deduplication, the iteration order of a JavaScript
`Set` filled by repeated `add` calls. -/
def dedupFirst (acc : List String) : List String → List String
  | [] => acc.reverse
  | w :: ws => if w ∈ acc then dedupFirst acc ws else dedupFirst (w :: acc) ws

/-- JavaScript division `a / b` where `b = 0` can only co-occur with
`a = 0` at the modelled call sites, so a zero denominator produces `NaN`
(modelled `none`). -/
noncomputable def jsDivR (a : ℝ) (b : ℝ) : Option ℝ :=
  if b = 0 then none else some (a / b)

/-- JavaScript division on `ℚ`-modelled numbers, same convention. -/
def jsDivQ (a : ℚ) (b : ℚ) : Option ℚ :=
  if b = 0 then none else some (a / b)

/-- JavaScript addition where either side may be `NaN`. -/
noncomputable def jsAddR : Option ℝ → Option ℝ → Option ℝ
  | some a, some b => some (a + b)
  | _, _ => none

/-! ## TextProcessor (`textProcessor.js`) -/

/-- A text chunk as built by `TextProcessor.createChunks` and stored in the
`PDF` model's `textChunks`. -/
structure Chunk where
  content : String
  pageNumber : Nat
  chunkIndex : Nat
  chunkId : String
  startChar : Nat
  endChar : Nat
  wordCount : Nat
deriving Repr, DecidableEq

/-- Collapsing every run of whitespace to a single space, the effect of
`text.replace(/\s+/g, ' ')` (the two later replaces in `preprocessText`
see no newline or tab any more). `prevSpace` records whether the previous
character belonged to a whitespace run. -/
def collapseWs (prevSpace : Bool) : List Char → List Char
  | [] => []
  | c :: cs =>
    if isSpaceChar c then
      if prevSpace then collapseWs true cs else ' ' :: collapseWs true cs
    else c :: collapseWs false cs

/-- `TextProcessor.preprocessText`: collapse whitespace runs to single
spaces, then trim. -/
def preprocessText (text : String) : String :=
  strTrim (String.mk (collapseWs false text.data))

/-- Terminal sentence punctuation, the class `[.!?]`. -/
def isTerminal (c : Char) : Bool := c = '.' || c = '!' || c = '?'

/-- All matches of the global regex `/[^.!?]+[.!?]+/g`: a match is a maximal
nonempty run of non-terminal characters followed by its maximal nonempty run
of terminal characters; unmatched characters are skipped. `fuel` bounds the
recursion by the input length so the function stays structurally recursive. -/
def sentenceMatchesAux : Nat → List Char → List String
  | 0, _ => []
  | fuel + 1, s =>
    match s with
    | [] => []
    | c :: cs =>
      if isTerminal c then sentenceMatchesAux fuel cs
      else
        let body := (c :: cs).takeWhile (fun d => !isTerminal d)
        let rest := (c :: cs).dropWhile (fun d => !isTerminal d)
        let punct := rest.takeWhile isTerminal
        match punct with
        | [] => []
        | _ :: _ =>
          String.mk (body ++ punct) :: sentenceMatchesAux fuel (rest.dropWhile isTerminal)

/-- `text.match(/[^.!?]+[.!?]+/g) || []`. -/
def sentenceMatches (s : List Char) : List String :=
  sentenceMatchesAux s.length s

/-- `TextProcessor.splitIntoSentences`: regex matches, trimmed, keeping only
fragments of length strictly greater than 10. -/
def splitIntoSentences (text : String) : List String :=
  ((sentenceMatches text.data).map strTrim).filter (fun s => 10 < s.length)

/-- The `natural.WordTokenizer` library call behind `wordCount`: it splits
the text into maximal runs of word characters. No claim depends on the
precise token count. -/
def wordTokenize (s : String) : List String :=
  (jsSplit (fun c => !isWordChar c) s).filter (fun w => w ≠ "")

/-- JavaScript `s.slice(-n)`: the last `n` characters (the whole string if
it is shorter). Only called with `n > 0`. -/
def strSliceNeg (n : Nat) (s : String) : String :=
  String.mk (s.data.drop (s.data.length - n))

/-- The mutable loop state of `TextProcessor.createChunks`. -/
structure ChunkerState where
  chunks : List Chunk
  currentChunk : String
  chunkIndex : Nat
  startChar : Nat

/-- The chunk pushed when the buffer overflows. The JavaScript object
literal evaluates `chunkIndex: chunkIndex++` before
``chunkId: `${pageNumber}_${chunkIndex}` ``, so the recorded `chunkIndex`
is the pre-increment value while the `chunkId` template reads the
post-increment value `chunkIndex + 1`. -/
def overflowChunk (pageNumber : Nat) (st : ChunkerState) : Chunk :=
  { content := strTrim st.currentChunk
    pageNumber := pageNumber
    chunkIndex := st.chunkIndex
    chunkId := Nat.repr pageNumber ++ "_" ++ Nat.repr (st.chunkIndex + 1)
    startChar := st.startChar
    endChar := st.startChar + st.currentChunk.length
    wordCount := (wordTokenize st.currentChunk).length }

/-- The final chunk pushed after the loop; here `chunkId` reads the same
`chunkIndex` that is recorded. -/
def finalChunk (pageNumber : Nat) (st : ChunkerState) : Chunk :=
  { content := strTrim st.currentChunk
    pageNumber := pageNumber
    chunkIndex := st.chunkIndex
    chunkId := Nat.repr pageNumber ++ "_" ++ Nat.repr st.chunkIndex
    startChar := st.startChar
    endChar := st.startChar + st.currentChunk.length
    wordCount := (wordTokenize st.currentChunk).length }

/-- The sentence loop of `TextProcessor.createChunks`. -/
def createChunksLoop (chunkSize chunkOverlap pageNumber : Nat) :
    List String → ChunkerState → ChunkerState
  | [], st => st
  | sentence :: rest, st =>
    let potentialChunk :=
      if st.currentChunk ≠ "" then st.currentChunk ++ " " ++ sentence else sentence
    if potentialChunk.length ≤ chunkSize then
      createChunksLoop chunkSize chunkOverlap pageNumber rest
        { st with currentChunk := potentialChunk }
    else
      let st1 :=
        if st.currentChunk ≠ "" then
          { st with
            chunks := st.chunks ++ [overflowChunk pageNumber st]
            chunkIndex := st.chunkIndex + 1
            startChar := st.startChar + st.currentChunk.length + 1 }
        else st
      let newCurrent :=
        if 0 < chunkOverlap ∧ st1.chunks ≠ [] then
          match st1.chunks.getLast? with
          | some lastChunk => strSliceNeg chunkOverlap lastChunk.content ++ " " ++ sentence
          | none => sentence
        else sentence
      createChunksLoop chunkSize chunkOverlap pageNumber rest
        { st1 with currentChunk := newCurrent }

/-- `TextProcessor.createChunks(text, pageNumber)`; `chunkSize` and
`chunkOverlap` are the constructor parameters (defaults 1000 and 200). -/
def createChunks (chunkSize chunkOverlap : Nat) (text : String) (pageNumber : Nat) :
    List Chunk :=
  let st := createChunksLoop chunkSize chunkOverlap pageNumber
    (splitIntoSentences text) ⟨[], "", 0, 0⟩
  if strTrim st.currentChunk ≠ "" then st.chunks ++ [finalChunk pageNumber st]
  else st.chunks

/-- The record `TextProcessor.processPDFText` returns. `averageChunkSize`
is `none` exactly when the JavaScript value is `NaN` (a `0 / 0`). -/
structure ProcessResult where
  chunks : List Chunk
  totalChunks : Nat
  totalWords : Nat
  averageChunkSize : Option ℚ
deriving Repr, DecidableEq

/-- `TextProcessor.processPDFText`: split on form feeds, preprocess each
page, chunk the non-blank pages with page numbers starting at 1, and
aggregate. The `pageCount` argument is unused by the source as well. -/
def processPDFText (chunkSize chunkOverlap : Nat) (text : String) (_pageCount : Nat) :
    ProcessResult :=
  let pages := jsSplit (fun c => c = '\x0c') text
  let allChunks := (pages.enum.map (fun p =>
    let pageText := preprocessText p.2
    if strTrim pageText ≠ "" then createChunks chunkSize chunkOverlap pageText (p.1 + 1)
    else [])).flatten
  { chunks := allChunks
    totalChunks := allChunks.length
    totalWords := (allChunks.map Chunk.wordCount).sum
    averageChunkSize :=
      jsDivQ ((allChunks.map (fun c => (c.content.length : ℚ))).sum) allChunks.length }

/-! ## EmbeddingService (`embeddingService.js`)

With no embedding API key (or with only the Anthropic key, which has no
embedding API), `generateEmbeddings` is `generateFallbackEmbeddings`; the
Cohere path performs network I/O and is covered by quantifying over an
arbitrary query vector in the primary-path theorems. -/

/-- The per-text record `generateEmbeddings` resolves with. -/
structure EmbeddingRecord where
  text : String
  embedding : List ℝ
  model : String

/-- A chunk as the similarity engine consumes it: `findSimilarChunks` reads
`content`, `wordCount` and `embedding`. A missing or empty `embedding`
(both skipped by `chunk.embedding && chunk.embedding.length > 0`) is the
empty list. -/
structure EmbeddedChunk where
  content : String
  wordCount : Nat
  embedding : List ℝ

/-- The token lists (`documents`) of `calculateTFIDF`. -/
def tfidfDocuments (texts : List String) : List (List String) :=
  texts.map jsTokenize

/-- The vocabulary of `calculateTFIDF`: all distinct tokens, in the
first-occurrence order a JavaScript `Set` iterates in. -/
def tfidfVocab (texts : List String) : List String :=
  dedupFirst [] (tfidfDocuments texts).flatten

/-- The inverse document frequency of one vocabulary word:
`Math.log(documents.length / docsWithWord)`. -/
noncomputable def tfidfIdf (texts : List String) (word : String) : ℝ :=
  Real.log ((tfidfDocuments texts).length /
    ((tfidfDocuments texts).filter (fun doc => word ∈ doc)).length)

/-- `EmbeddingService.calculateTFIDF`: one vector per input text, indexed by
the shared vocabulary, with entries `tf * idf` (term frequency is the raw
token count in the document). -/
noncomputable def calculateTFIDF (texts : List String) : List (List ℝ) :=
  (tfidfDocuments texts).map (fun doc =>
    (tfidfVocab texts).map (fun word => (doc.count word : ℝ) * tfidfIdf texts word))

/-- `EmbeddingService.generateFallbackEmbeddings`. -/
noncomputable def generateFallbackEmbeddings (texts : List String) : List EmbeddingRecord :=
  List.zipWith (fun text embedding => ⟨text, embedding, "fallback"⟩)
    texts (calculateTFIDF texts)

/-- The sum of squares accumulated in `norm1`/`norm2` of
`calculateCosineSimilarity`. -/
def normSq (v : List ℝ) : ℝ := (v.map (fun x => x * x)).sum

/-- The dot product accumulated in `calculateCosineSimilarity` (the loop
runs over the common length; the lengths are equal whenever it runs). -/
def dotProd (v1 v2 : List ℝ) : ℝ := (List.zipWith (· * ·) v1 v2).sum

/-- `EmbeddingService.calculateCosineSimilarity`: throws on a length
mismatch, returns 0 when the denominator `√norm1 * √norm2` is 0, and
`dot / denominator` otherwise. -/
noncomputable def calculateCosineSimilarity (vec1 vec2 : List ℝ) : Except String ℝ :=
  if vec1.length ≠ vec2.length then .error "Vectors must have the same length"
  else
    let denominator := Real.sqrt (normSq vec1) * Real.sqrt (normSq vec2)
    if denominator = 0 then .ok 0 else .ok (dotProd vec1 vec2 / denominator)

/-- `EmbeddingService.calculateRelevanceScore`:
`min(similarity + min(len/1000, 0.2) + min(wordCount/100, 0.1), 1.0)`. -/
noncomputable def calculateRelevanceScore (similarity : ℝ) (chunk : EmbeddedChunk) : ℝ :=
  min (similarity + min ((chunk.content.length : ℝ) / 1000) 0.2
      + min ((chunk.wordCount : ℝ) / 100) 0.1) 1.0

/-- One entry of the `similarities` arrays of `findSimilarChunks` and
`fallbackSimilaritySearch`. `similarity`/`relevance` are `none` when the
JavaScript value is `NaN`; `commonWords` is present only on the fallback
path. -/
structure SimilarityResult where
  chunk : EmbeddedChunk
  similarity : Option ℝ
  relevance : Option ℝ
  commonWords : Option (List String)

/-- The similarity a result is compared and sorted by (`NaN` never reaches
a comparison site, see the module comment). -/
def simValue (r : SimilarityResult) : ℝ := r.similarity.getD 0

/-- The sort relation of `.sort((a, b) => b.similarity - a.similarity)`:
descending by similarity; `List.mergeSort` with this total relation is the
stable sort ECMAScript prescribes. -/
noncomputable def searchCmp (a b : SimilarityResult) : Bool :=
  decide (simValue b ≤ simValue a)

/-- The JavaScript comparison `similarity >= threshold` (false on `NaN`). -/
noncomputable def jsGeB (x : Option ℝ) (threshold : ℝ) : Bool :=
  match x with
  | none => false
  | some v => decide (threshold ≤ v)

/-- The JavaScript comparison `similarity > bound` (false on `NaN`). -/
noncomputable def jsGtB (x : Option ℝ) (bound : ℝ) : Bool :=
  match x with
  | none => false
  | some v => decide (bound < v)

/-- The result record both search paths return (`method` is set only by the
fallback path). -/
structure SearchResult where
  results : List SimilarityResult
  totalChunks : Nat
  chunksWithEmbeddings : Nat
  averageSimilarity : Option ℝ
  method : Option String

/-- The similarity loop of `findSimilarChunks`: chunks without an embedding
are skipped; a `calculateCosineSimilarity` throw aborts the whole loop. -/
noncomputable def primarySimilarities (queryVector : List ℝ) :
    List EmbeddedChunk → Except String (List SimilarityResult)
  | [] => .ok []
  | chunk :: rest =>
    if chunk.embedding.isEmpty then primarySimilarities queryVector rest
    else
      match calculateCosineSimilarity queryVector chunk.embedding with
      | .error e => .error e
      | .ok similarity =>
        match primarySimilarities queryVector rest with
        | .error e => .error e
        | .ok tail =>
          .ok ({ chunk := chunk
                 similarity := some similarity
                 relevance := some (calculateRelevanceScore similarity chunk)
                 commonWords := none } :: tail)

/-- The `sum + r.similarity` reduction over a similarity array, starting
from 0. -/
noncomputable def sumSimilarities (sims : List SimilarityResult) : Option ℝ :=
  sims.foldl (fun acc r => jsAddR acc r.similarity) (some 0)

/-- The record `findSimilarChunks` builds from the computed similarities:
filter by `similarity >= threshold`, stable-sort descending, truncate to
`topK`; `averageSimilarity` averages all computed similarities and is
guarded to 0 for an empty array. -/
noncomputable def assemblePrimary (totalChunks topK : Nat) (threshold : ℝ)
    (sims : List SimilarityResult) : SearchResult :=
  { results := ((sims.filter (fun r => jsGeB r.similarity threshold)).mergeSort
      searchCmp).take topK
    totalChunks := totalChunks
    chunksWithEmbeddings := sims.length
    averageSimilarity :=
      if 0 < sims.length then (sumSimilarities sims).map (fun s => s / sims.length)
      else some 0
    method := none }

/-- The `try` body of `EmbeddingService.findSimilarChunks`, given the query
vector the embedding step produced. -/
noncomputable def findSimilarWithVector (queryVector : List ℝ)
    (chunks : List EmbeddedChunk) (topK : Nat) (threshold : ℝ) :
    Except String SearchResult :=
  (primarySimilarities queryVector chunks).map
    (assemblePrimary chunks.length topK threshold)

/-- The `similarities` array of `fallbackSimilaritySearch`: keyword overlap
of the query tokens with each chunk's tokens. `commonWords` filters the
query tokens (with multiplicity) by membership in the chunk tokens. -/
noncomputable def fallbackSims (query : String) (chunks : List EmbeddedChunk) :
    List SimilarityResult :=
  let queryWords := jsTokenize query
  chunks.map (fun chunk =>
    let chunkWords := jsTokenize chunk.content
    let commonWords := queryWords.filter (fun w => chunkWords.contains w)
    let similarity := jsDivR (commonWords.length : ℝ)
      ((max queryWords.length chunkWords.length : ℕ) : ℝ)
    { chunk := chunk
      similarity := similarity
      relevance := similarity.map (fun s => calculateRelevanceScore s chunk)
      commonWords := some commonWords })

/-- `EmbeddingService.fallbackSimilaritySearch`: keyword-overlap scores,
filtered at the fixed `> 0.01`, stable-sorted descending, truncated to
`topK`; `averageSimilarity` divides by the full chunk count without a
zero guard; the record is tagged `method: 'fallback'`. -/
noncomputable def fallbackSimilaritySearch (query : String)
    (chunks : List EmbeddedChunk) (topK : Nat) : SearchResult :=
  let similarities := fallbackSims query chunks
  { results := ((similarities.filter (fun r => jsGtB r.similarity (1 / 100))).mergeSort
      searchCmp).take topK
    totalChunks := chunks.length
    chunksWithEmbeddings := chunks.length
    averageSimilarity :=
      match sumSimilarities similarities with
      | none => none
      | some s =>
        if (similarities.length : ℝ) = 0 then none else some (s / similarities.length)
    method := some "fallback" }

/-- `EmbeddingService.findSimilarChunks` in the deterministic
fallback-embedding mode: the query is embedded alone with
`generateFallbackEmbeddings`; a missing query embedding or any throw inside
the `try` block degrades to `fallbackSimilaritySearch` (which does not
receive `threshold`). -/
noncomputable def findSimilarChunks (query : String) (chunks : List EmbeddedChunk)
    (topK : Nat) (threshold : ℝ) : SearchResult :=
  match generateFallbackEmbeddings [query] with
  | [] => fallbackSimilaritySearch query chunks topK
  | record :: _ =>
    match findSimilarWithVector record.embedding chunks topK threshold with
    | .ok r => r
    | .error _ => fallbackSimilaritySearch query chunks topK

/-- The results list a caller of `findSimilarChunks` sees from the `try`
body: those of the returned record, or none when the body threw (and the
engine degrades to the fallback search). -/
def okResults : Except String SearchResult → List SimilarityResult
  | .ok r => r.results
  | .error _ => []

/-- The spec's wording of the fallback similarity (claim C5): the
*distinct* shared tokens over the larger token count. The code instead
counts the query tokens with multiplicity; the two disagree as soon as the
query repeats a token that the chunk contains. -/
noncomputable def specFallbackSimilarity (query content : String) : ℝ :=
  ((dedupFirst [] ((jsTokenize query).filter
      (fun w => (jsTokenize content).contains w))).length : ℝ) /
    ((max (jsTokenize query).length (jsTokenize content).length : ℕ) : ℝ)

/-- A concrete chunk used to evaluate the fallback search path. -/
def catsChunk : EmbeddedChunk := ⟨"cats here", 2, []⟩

/-! ## LLMService (`llmService.js`), extractive fallback path

`generateFallbackResponse` only adds, divides and compares similarity
numbers, so they are modelled in `ℚ`; every division it performs has a
nonzero denominator (the zero-retrieval case returns the literal 0), so no
`NaN` can arise and plain `ℚ` is exact. -/

/-- A retrieved chunk as the chat route passes it to the composer; the
`similarity`/`relevance` fields may be absent (`chunk.similarity || 0`). -/
structure RetrievedChunk where
  chunkId : String
  content : String
  pageNumber : Nat
  similarity : Option ℚ
  relevance : Option ℚ
deriving Repr, DecidableEq

/-- `chunk.similarity || 0`. -/
def simOr0 (c : RetrievedChunk) : ℚ := c.similarity.getD 0

/-- `chunk.relevance || 0`. -/
def relOr0 (c : RetrievedChunk) : ℚ := c.relevance.getD 0

/-- The truncated provenance copy of a chunk stored in the response
context. -/
structure ResponseContextChunk where
  chunkId : String
  content : String
  pageNumber : Nat
  similarity : ℚ
  relevance : ℚ
deriving Repr, DecidableEq

/-- The `context` object of a composer response. -/
structure ResponseContext where
  retrievedChunks : List ResponseContextChunk
  totalChunksRetrieved : Nat
  averageSimilarity : ℚ
deriving Repr, DecidableEq

/-- A composer response: `{answer, model, context}`. -/
structure ComposerResponse where
  answer : String
  model : String
  context : ResponseContext
deriving Repr, DecidableEq

/-- The document metadata argument; `generateFallbackResponse` never reads
it. -/
structure PdfMetadata where
  filename : Option String
  pageCount : Option Nat
deriving Repr, DecidableEq

/-- The descending stable sort
`.sort((a, b) => (b.similarity || 0) - (a.similarity || 0))`. -/
def sortRetrieved (chunks : List RetrievedChunk) : List RetrievedChunk :=
  chunks.mergeSort (fun a b => decide (simOr0 b ≤ simOr0 a))

/-- JavaScript `content.substring(0, n)`. -/
def substringTo (n : Nat) (s : String) : String := String.mk (s.data.take n)

/-- The greedy sentence accumulation of `generateChunkSummary`: append each
sentence while the summary stays within `maxLength`, stop at the first one
that does not fit. -/
def greedySummary (maxLength : Nat) (summary : String) : List String → String
  | [] => summary
  | sentence :: rest =>
    if (summary ++ sentence).length ≤ maxLength then
      greedySummary maxLength (summary ++ sentence) rest
    else summary

/-- `LLMService.generateChunkSummary`. -/
def generateChunkSummary (content : String) (maxLength : Nat) : String :=
  let truncated := substringTo maxLength content ++
    (if maxLength < content.length then "..." else "")
  match sentenceMatches content.data with
  | [] => truncated
  | sentences =>
    let summary := greedySummary maxLength "" sentences
    if summary ≠ "" then summary else truncated

/-- The truncated provenance copy `chunkId/content.substring(0, 200) + '...'
/pageNumber/similarity || 0/relevance || 0` built in both non-empty
branches. -/
def contextChunk (c : RetrievedChunk) : ResponseContextChunk :=
  { chunkId := c.chunkId
    content := substringTo 200 c.content ++ "..."
    pageNumber := c.pageNumber
    similarity := simOr0 c
    relevance := relOr0 c }

/-- JavaScript `Number.prototype.toFixed(1)` for the nonnegative rationals
this code formats: the value rounded to one decimal place (ties away from
zero), printed as `whole.tenth`. -/
def toFixed1 (q : ℚ) : String :=
  let n : ℤ := ⌊q * 10 + 1 / 2⌋
  let n' : ℕ := n.toNat
  Nat.repr (n' / 10) ++ "." ++ Nat.repr (n' % 10)

/-- One numbered item of the comprehensive-answer branch. -/
def topChunkItem (indexed : Nat × RetrievedChunk) : String :=
  Nat.repr (indexed.1 + 1) ++ ". **Page " ++ Nat.repr indexed.2.pageNumber ++
    "** (Relevance: " ++ toFixed1 (relOr0 indexed.2 * 100) ++ "%):\n" ++
    generateChunkSummary indexed.2.content 200 ++ "\n\n"

/-- One line of the low-relevance branch's `contextInfo`. -/
def lowRelevanceItem (c : RetrievedChunk) : String :=
  "Page " ++ Nat.repr c.pageNumber ++ ": \"" ++ substringTo 150 c.content ++ "\"..."

/-- Interpose a separator between strings, JavaScript `Array.join`. -/
def joinWith (sep : String) (parts : List String) : String :=
  String.join (parts.intersperse sep)

/-- `LLMService.generateFallbackResponse`: the extractive composer used when
no generative model is configured or the external call failed. The three
branches: zero retrieved chunks return a fixed message; no chunk above
similarity 0.1 presents the top 2 chunks as possibly related; otherwise the
top 3 relevant chunks are summarised. The function never throws: every
branch returns a well-formed response record. -/
def generateFallbackResponse (_question : String) (retrievedChunks : List RetrievedChunk)
    (_pdfMetadata : PdfMetadata) : ComposerResponse :=
  if retrievedChunks.length = 0 then
    { answer := "I couldn't find any relevant information in the document to answer your question. Please try rephrasing your question or check if the document contains the information you're looking for."
      model := "fallback"
      context := { retrievedChunks := [], totalChunksRetrieved := 0, averageSimilarity := 0 } }
  else
    let relevantChunks := sortRetrieved (retrievedChunks.filter (fun c => 1 / 10 < simOr0 c))
    if relevantChunks.length = 0 then
      let bestChunks := (sortRetrieved retrievedChunks).take 2
      let contextInfo := joinWith "\n\n" (bestChunks.map lowRelevanceItem)
      { answer := "While I couldn't find highly relevant information, here's what I found in the document that might be related:\n\n" ++ contextInfo ++ "\n\nTry asking more specific questions or rephrasing your query. You can also ask about specific topics, page numbers, or content sections."
        model := "fallback"
        context :=
          { retrievedChunks := bestChunks.map contextChunk
            totalChunksRetrieved := bestChunks.length
            averageSimilarity := (bestChunks.map simOr0).sum / bestChunks.length } }
    else
      let topChunks := relevantChunks.take 3
      let answer := "Based on the relevant content I found, here's what I can tell you:\n\n" ++
        String.join (topChunks.enum.map topChunkItem) ++
        (if 3 < relevantChunks.length then
          "*Note: I found " ++ Nat.repr relevantChunks.length ++ " relevant sections. For more details, try asking about specific topics or page numbers.*"
        else "")
      { answer := answer
        model := "fallback"
        context :=
          { retrievedChunks := relevantChunks.map contextChunk
            totalChunksRetrieved := relevantChunks.length
            averageSimilarity := (relevantChunks.map simOr0).sum / relevantChunks.length } }

/-! ## Helper lemmas about the vector arithmetic -/

theorem normSq_nil : normSq [] = 0 := rfl

theorem normSq_cons (a : ℝ) (t : List ℝ) : normSq (a :: t) = a * a + normSq t := by
  simp [normSq]

theorem normSq_nonneg (v : List ℝ) : 0 ≤ normSq v := by
  refine List.sum_nonneg ?_
  intro x hx
  obtain ⟨y, -, rfl⟩ := List.mem_map.1 hx
  exact mul_self_nonneg y

theorem dotProd_comm (v1 v2 : List ℝ) : dotProd v1 v2 = dotProd v2 v1 := by
  unfold dotProd
  rw [List.zipWith_comm (· * ·)]
  simp [mul_comm]

theorem dotProd_self (v : List ℝ) : dotProd v v = normSq v := by
  induction v with
  | nil => rfl
  | cons a t ih => simp [dotProd, normSq] at ih ⊢

theorem normSq_pos_of_mem {v : List ℝ} {x : ℝ} (hx : x ∈ v) (hx0 : x ≠ 0) :
    0 < normSq v := by
  induction v with
  | nil => cases hx
  | cons a t ih =>
    rw [normSq_cons]
    rcases List.mem_cons.1 hx with rfl | hmem
    · have : 0 < x * x := mul_self_pos.2 hx0
      have := normSq_nonneg t
      linarith
    · have : 0 ≤ a * a := mul_self_nonneg a
      have := ih hmem
      linarith

theorem map_sum_eq_range (f : ℝ → ℝ) (v : List ℝ) :
    (v.map f).sum = ∑ i ∈ Finset.range v.length, f (v.getD i 0) := by
  induction v with
  | nil => simp
  | cons a t ih =>
    rw [List.map_cons, List.sum_cons, List.length_cons, Finset.sum_range_succ']
    simp only [List.getD_cons_succ, List.getD_cons_zero]
    rw [ih]
    ring

theorem dotProd_eq_range (v1 v2 : List ℝ) (h : v1.length = v2.length) :
    dotProd v1 v2 = ∑ i ∈ Finset.range v1.length, v1.getD i 0 * v2.getD i 0 := by
  induction v1 generalizing v2 with
  | nil => simp [dotProd]
  | cons a t ih =>
    cases v2 with
    | nil => simp at h
    | cons b t2 =>
      simp only [List.length_cons, Nat.succ_inj] at h
      simp only [dotProd, List.zipWith_cons_cons, List.sum_cons, List.length_cons]
      rw [Finset.sum_range_succ']
      simp only [List.getD_cons_succ, List.getD_cons_zero]
      rw [← dotProd, ih t2 h]
      ring

/-- Cauchy-Schwarz for the accumulated sums of `calculateCosineSimilarity`. -/
theorem dotProd_le_sqrt (v1 v2 : List ℝ) (h : v1.length = v2.length) :
    dotProd v1 v2 ≤ Real.sqrt (normSq v1) * Real.sqrt (normSq v2) := by
  rw [dotProd_eq_range v1 v2 h]
  have hcs := Real.sum_mul_le_sqrt_mul_sqrt (Finset.range v1.length)
    (fun i => v1.getD i 0) (fun i => v2.getD i 0)
  have h1 : normSq v1 = ∑ i ∈ Finset.range v1.length, v1.getD i 0 ^ 2 := by
    rw [normSq, map_sum_eq_range]
    exact Finset.sum_congr rfl fun i _ => (sq (v1.getD i 0)).symm ▸ (pow_two _).symm
  have h2 : normSq v2 = ∑ i ∈ Finset.range v1.length, v2.getD i 0 ^ 2 := by
    rw [normSq, map_sum_eq_range, h]
    exact Finset.sum_congr rfl fun i _ => (pow_two _).symm
  rw [h1, h2]
  exact hcs

/-- Any similarity the primary path computes is at most 1. -/
theorem cosine_ok_le_one {v1 v2 : List ℝ} {s : ℝ}
    (h : calculateCosineSimilarity v1 v2 = .ok s) : s ≤ 1 := by
  unfold calculateCosineSimilarity at h
  by_cases hl : v1.length ≠ v2.length
  · simp [hl] at h
  · push_neg at hl
    rw [if_neg (by simp [hl])] at h
    by_cases hd : Real.sqrt (normSq v1) * Real.sqrt (normSq v2) = 0
    · rw [if_pos hd] at h
      cases h
      norm_num
    · rw [if_neg hd] at h
      cases h
      have hnn : 0 ≤ Real.sqrt (normSq v1) * Real.sqrt (normSq v2) :=
        mul_nonneg (Real.sqrt_nonneg _) (Real.sqrt_nonneg _)
      have hpos : 0 < Real.sqrt (normSq v1) * Real.sqrt (normSq v2) :=
        lt_of_le_of_ne hnn (Ne.symm hd)
      exact (div_le_one hpos).2 (dotProd_le_sqrt v1 v2 hl)

theorem mem_dedupFirst {acc l : List String} {x : String} :
    x ∈ dedupFirst acc l ↔ x ∈ acc ∨ x ∈ l := by
  induction l generalizing acc with
  | nil => simp [dedupFirst]
  | cons w ws ih =>
    by_cases hw : w ∈ acc
    · rw [dedupFirst, if_pos hw, ih]
      constructor
      · rintro (h | h)
        · exact Or.inl h
        · exact Or.inr (List.mem_cons_of_mem _ h)
      · rintro (h | h)
        · exact Or.inl h
        · rcases List.mem_cons.1 h with rfl | h
          · exact Or.inl hw
          · exact Or.inr h
    · rw [dedupFirst, if_neg hw, ih]
      constructor
      · rintro (h | h)
        · rcases List.mem_cons.1 h with rfl | h
          · exact Or.inr (List.mem_cons_self _ _)
          · exact Or.inl h
        · exact Or.inr (List.mem_cons_of_mem _ h)
      · rintro (h | h)
        · exact Or.inl (List.mem_cons_of_mem _ h)
        · rcases List.mem_cons.1 h with rfl | h
          · exact Or.inl (List.mem_cons_self _ _)
          · exact Or.inr h

/-! ## Claim C1 — chunkId uniqueness and stability -/

/-- C1 (code bug): the claim says `createChunks` gives chunks pairwise
distinct `chunkId`s that are a stable function of `(pageNumber,
chunkIndex)`. The object literal of the overflow branch evaluates
`chunkIndex: chunkIndex++` before the `chunkId` template, so an
overflow-flushed chunk at index `k` gets id `page_(k+1)` while the final
chunk at index `k` gets `page_k`: on the first input below (chunk size 30,
overlap 0) both produced chunks carry id `"1_1"`, and the pair
`(pageNumber, chunkIndex) = (1, 0)` maps to `"1_1"` there but to `"1_0"`
on the second, single-chunk input. -/
theorem createChunks_chunkId_collision :
    ((createChunks 30 0 "This is a sentence one here. This is sentence number two." 1).map
        (fun c => (c.chunkIndex, c.chunkId)) = [(0, "1_1"), (1, "1_1")]) ∧
    ((createChunks 1000 200 "This is a test sentence for chunking." 1).map
        (fun c => (c.chunkIndex, c.chunkId)) = [(0, "1_0")]) := by
  decide

/-! ## Claim C3 — averageChunkSize aggregate -/

/-- C3 (code bug): the claim (and the spec) require the zero-chunk case of
`processPDFText` to be guarded so `averageChunkSize` is never `NaN`, but
the code divides by `allChunks.length` unconditionally: on the input
`"Hi."` (its only sentence fragment is shorter than the 10-character
cutoff) no chunk is produced and `averageChunkSize` is the JavaScript
`0 / 0 = NaN`, modelled `none`. -/
theorem processPDFText_zero_chunks_NaN :
    (processPDFText 1000 200 "Hi." 1).totalChunks = 0 ∧
    (processPDFText 1000 200 "Hi." 1).averageChunkSize = none := by
  decide

/-! ## Claim C6 — the sentence-length cutoff -/

/-- C6 (counterexample): the claim says a trimmed fragment of exactly 10
characters is kept, but the filter is `s.length > 10`: the input
`"Abcdefghi."` yields exactly one regex match whose trim has length 10,
and `splitIntoSentences` discards it. -/
theorem splitIntoSentences_drops_ten_char_fragment :
    sentenceMatches "Abcdefghi.".data = ["Abcdefghi."] ∧
    (strTrim "Abcdefghi.").length = 10 ∧
    splitIntoSentences "Abcdefghi." = [] := by
  decide

/-- C6 (amended): `splitIntoSentences` keeps exactly the trimmed regex
fragments whose length is at least 11 (strictly greater than 10); every
kept sentence has length at least 11. -/
theorem splitIntoSentences_keeps_gt_ten (text : String) :
    splitIntoSentences text =
      ((sentenceMatches text.data).map strTrim).filter (fun s => 11 ≤ s.length) ∧
    ∀ s ∈ splitIntoSentences text, 11 ≤ s.length := by
  constructor
  · unfold splitIntoSentences
    apply List.filter_congr
    intro x _
    simp [Nat.lt_iff_add_one_le]
  · intro s hs
    unfold splitIntoSentences at hs
    simp only [List.mem_filter, decide_eq_true_eq] at hs
    omega

/-- C6 witness: on a concrete text the 24-character sentence is kept and
indeed has length at least 11. -/
theorem splitIntoSentences_keeps_gt_ten_witness :
    "This is a kept sentence." ∈ splitIntoSentences "This is a kept sentence. Short." ∧
    11 ≤ "This is a kept sentence.".length :=
  ⟨by decide, (splitIntoSentences_keeps_gt_ten "This is a kept sentence. Short.").2
    "This is a kept sentence." (by decide)⟩

/-! ## Claim C9 — the composer on zero retrieved chunks -/

/-- C9 (confirmed): invoked with zero retrieved chunks,
`generateFallbackResponse` returns the fixed "couldn't find any relevant
information" message with `model: 'fallback'` and a context whose
`retrievedChunks` list is empty, `totalChunksRetrieved` is 0 and
`averageSimilarity` is 0; the branch is a plain return, so the modelled
function is total and no exception is thrown. -/
theorem generateFallbackResponse_zero_chunks (question : String) (meta : PdfMetadata) :
    generateFallbackResponse question [] meta =
      { answer := "I couldn't find any relevant information in the document to answer your question. Please try rephrasing your question or check if the document contains the information you're looking for."
        model := "fallback"
        context :=
          { retrievedChunks := [], totalChunksRetrieved := 0, averageSimilarity := 0 } } :=
  rfl

/-! ## Claim C7 — cosine similarity algebra -/

/-- Unfolding of `calculateCosineSimilarity` when the lengths agree. -/
theorem cosine_eq_of_length_eq {v1 v2 : List ℝ} (h : v1.length = v2.length) :
    calculateCosineSimilarity v1 v2 =
      (if Real.sqrt (normSq v1) * Real.sqrt (normSq v2) = 0 then .ok 0
       else .ok (dotProd v1 v2 / (Real.sqrt (normSq v1) * Real.sqrt (normSq v2)))) := by
  unfold calculateCosineSimilarity
  rw [if_neg (by simp [h])]

/-- Unfolding of `calculateCosineSimilarity` when the lengths differ. -/
theorem cosine_eq_error_of_length_ne {v1 v2 : List ℝ} (h : v1.length ≠ v2.length) :
    calculateCosineSimilarity v1 v2 = .error "Vectors must have the same length" := by
  unfold calculateCosineSimilarity
  rw [if_pos (by simp [h])]

/-- C7 (confirmed): `calculateCosineSimilarity` is symmetric (also in the
thrown error when the lengths differ); self-similarity of a vector with a
nonzero entry is exactly 1 (the model works in `ℝ`, so the floating
tolerance of the claim is exact equality); and whenever either vector's
norm `√(Σ xᵢ²)` is 0 (lengths agreeing), the result is `.ok 0`, not an
error. -/
theorem cosine_symm_self_one_zero_norm :
    (∀ v1 v2 : List ℝ, calculateCosineSimilarity v1 v2 = calculateCosineSimilarity v2 v1) ∧
    (∀ v : List ℝ, (∃ x ∈ v, x ≠ 0) → calculateCosineSimilarity v v = .ok 1) ∧
    (∀ v1 v2 : List ℝ, v1.length = v2.length →
      Real.sqrt (normSq v1) = 0 ∨ Real.sqrt (normSq v2) = 0 →
      calculateCosineSimilarity v1 v2 = .ok 0) := by
  refine ⟨?_, ?_, ?_⟩
  · intro v1 v2
    by_cases hl : v1.length = v2.length
    · rw [cosine_eq_of_length_eq hl, cosine_eq_of_length_eq hl.symm,
        dotProd_comm v1 v2, mul_comm (Real.sqrt (normSq v1)) (Real.sqrt (normSq v2))]
    · rw [cosine_eq_error_of_length_ne hl, cosine_eq_error_of_length_ne (Ne.symm hl)]
  · intro v ⟨x, hx, hx0⟩
    have hpos : 0 < normSq v := normSq_pos_of_mem hx hx0
    have hsq : Real.sqrt (normSq v) * Real.sqrt (normSq v) = normSq v :=
      Real.mul_self_sqrt (le_of_lt hpos)
    rw [cosine_eq_of_length_eq rfl, hsq, if_neg (ne_of_gt hpos), dotProd_self,
      div_self (ne_of_gt hpos)]
  · intro v1 v2 hl hz
    rw [cosine_eq_of_length_eq hl, if_pos]
    rcases hz with hz | hz
    · rw [hz, zero_mul]
    · rw [hz, mul_zero]

/-- C7 witness: at `v = [1, 0]` the self-similarity is exactly `.ok 1`, and
against `[0]` (whose norm is 0) the similarity with `[5]` is `.ok 0`. -/
theorem cosine_symm_self_one_zero_norm_witness :
    (∃ x ∈ [(1:ℝ), 0], x ≠ 0) ∧
    calculateCosineSimilarity [(1:ℝ), 0] [1, 0] = .ok 1 ∧
    ([(0:ℝ)].length = [(5:ℝ)].length ∧ Real.sqrt (normSq [(0:ℝ)]) = 0) ∧
    calculateCosineSimilarity [(0:ℝ)] [5] = .ok 0 := by
  have h0 : Real.sqrt (normSq [(0:ℝ)]) = 0 := by
    rw [show normSq [(0:ℝ)] = 0 by simp [normSq], Real.sqrt_zero]
  exact ⟨⟨1, by simp, one_ne_zero⟩,
    cosine_symm_self_one_zero_norm.2.1 [(1:ℝ), 0] ⟨1, by simp, one_ne_zero⟩,
    ⟨rfl, h0⟩,
    cosine_symm_self_one_zero_norm.2.2 [(0:ℝ)] [5] rfl (Or.inl h0)⟩

/-- A single-text TF-IDF batch is one all-zero vector: every vocabulary
token occurs in the only document, so each IDF is `ln(1/1) = 0`. -/
theorem calculateTFIDF_single (t : String) :
    calculateTFIDF [t] = [List.replicate (tfidfVocab [t]).length 0] := by
  unfold calculateTFIDF
  have hdocs : tfidfDocuments [t] = [jsTokenize t] := rfl
  rw [hdocs, List.map_singleton]
  congr 1
  have hmem : ∀ w ∈ tfidfVocab [t], w ∈ jsTokenize t := by
    intro w hw
    have := mem_dedupFirst.1 hw
    simpa [tfidfDocuments] using this
  have hidf : ∀ w ∈ tfidfVocab [t], tfidfIdf [t] w = 0 := by
    intro w hw
    unfold tfidfIdf
    rw [hdocs]
    simp [List.filter_singleton, hmem w hw]
  calc (tfidfVocab [t]).map (fun w => ((jsTokenize t).count w : ℝ) * tfidfIdf [t] w)
      = (tfidfVocab [t]).map (fun _ => (0:ℝ)) := by
        apply List.map_congr_left
        intro w hw
        rw [hidf w hw, mul_zero]
    _ = List.replicate (tfidfVocab [t]).length 0 := List.map_const' _ _

/-! ## Claim C10 — single-text TF-IDF batches are zero vectors -/

/-- C10 (confirmed): a single-element batch gives the all-zero TF-IDF
vector (every token of the only document occurs in it, so each IDF is
`ln(1) = 0`); hence in fallback-embedding mode the query record produced by
embedding a query alone carries a zero vector, and the primary path's
cosine similarity against it is `.ok 0` whenever the dimensions match. -/
theorem single_text_tfidf_zero :
    (∀ t : String, calculateTFIDF [t] = [List.replicate (tfidfVocab [t]).length 0]) ∧
    (∀ (t : String) (v : List ℝ), v.length = (tfidfVocab [t]).length →
      ∀ e ∈ generateFallbackEmbeddings [t],
        calculateCosineSimilarity e.embedding v = .ok 0) := by
  refine ⟨calculateTFIDF_single, ?_⟩
  intro t v hv e he
  have hemb : e.embedding = List.replicate (tfidfVocab [t]).length 0 := by
    unfold generateFallbackEmbeddings at he
    rw [calculateTFIDF_single t] at he
    simp only [List.zipWith_cons_cons, List.zipWith_nil_right] at he
    rw [List.mem_singleton] at he
    rw [he]
  rw [hemb]
  unfold calculateCosineSimilarity
  rw [if_neg (by simp [hv]), if_pos]
  rw [show normSq (List.replicate (tfidfVocab [t]).length 0) = 0 by
    simp [normSq, List.map_replicate]]
  rw [Real.sqrt_zero, zero_mul]

/-- C10 witness: for the query `"hello world"` the vocabulary has two
entries, the query record in the fallback-embedding batch carries the zero
vector of that length, and its cosine similarity against the two-entry
vector `[3, 4]` is `.ok 0`. -/
theorem single_text_tfidf_zero_witness :
    [(3:ℝ), 4].length = (tfidfVocab ["hello world"]).length ∧
    (⟨"hello world", List.replicate (tfidfVocab ["hello world"]).length 0,
        "fallback"⟩ : EmbeddingRecord) ∈ generateFallbackEmbeddings ["hello world"] ∧
    calculateCosineSimilarity
      (List.replicate (tfidfVocab ["hello world"]).length 0) [(3:ℝ), 4] = .ok 0 := by
  have hlen : [(3:ℝ), 4].length = (tfidfVocab ["hello world"]).length := by
    show 2 = (tfidfVocab ["hello world"]).length
    decide
  have hmem : (⟨"hello world", List.replicate (tfidfVocab ["hello world"]).length 0,
      "fallback"⟩ : EmbeddingRecord) ∈ generateFallbackEmbeddings ["hello world"] := by
    unfold generateFallbackEmbeddings
    rw [single_text_tfidf_zero.1 "hello world"]
    simp
  exact ⟨hlen, hmem,
    single_text_tfidf_zero.2 "hello world" [(3:ℝ), 4] hlen _ hmem⟩

/-! ## Helper lemmas about the two search paths -/

/-- Every similarity entry the primary loop produces carries a real
similarity, and it is at most 1. -/
theorem primarySimilarities_sims {qv : List ℝ} :
    ∀ {chunks : List EmbeddedChunk} {sims : List SimilarityResult},
      primarySimilarities qv chunks = .ok sims →
      ∀ r ∈ sims, ∃ s, r.similarity = some s ∧ s ≤ 1 := by
  intro chunks
  induction chunks with
  | nil =>
    intro sims h r hr
    simp only [primarySimilarities] at h
    cases h
    cases hr
  | cons c cs ih =>
    intro sims h r hr
    simp only [primarySimilarities] at h
    by_cases he : c.embedding.isEmpty
    · rw [if_pos he] at h
      exact ih h r hr
    · rw [if_neg he] at h
      cases hc : calculateCosineSimilarity qv c.embedding with
      | error e => rw [hc] at h; simp at h
      | ok s =>
        rw [hc] at h
        cases ht : primarySimilarities qv cs with
        | error e => rw [ht] at h; simp at h
        | ok tail =>
          rw [ht] at h
          simp only [Except.ok.injEq] at h
          subst h
          rcases List.mem_cons.1 hr with rfl | hmem
          · exact ⟨s, rfl, cosine_ok_le_one hc⟩
          · exact ih ht r hmem

/-- The `sum + r.similarity` reduction over entries that all carry a real
similarity, from an arbitrary starting accumulator. -/
theorem foldl_jsAddR :
    ∀ (sims : List SimilarityResult), (∀ r ∈ sims, r.similarity.isSome) →
      ∀ init : ℝ, sims.foldl (fun acc r => jsAddR acc r.similarity) (some init) =
        some (init + (sims.map simValue).sum) := by
  intro sims
  induction sims with
  | nil => intro _ init; simp
  | cons r rs ih =>
    intro h init
    obtain ⟨s, hs⟩ := Option.isSome_iff_exists.1 (h r (List.mem_cons_self r rs))
    have hsv : simValue r = s := by simp [simValue, hs]
    simp only [List.foldl_cons]
    rw [show jsAddR (some init) r.similarity = some (init + s) by simp [jsAddR, hs]]
    rw [ih (fun x hx => h x (List.mem_cons_of_mem _ hx)) (init + s)]
    simp [hsv, add_assoc]

/-- `sumSimilarities` over entries that all carry a real similarity. -/
theorem sumSimilarities_eq {sims : List SimilarityResult}
    (h : ∀ r ∈ sims, r.similarity.isSome) :
    sumSimilarities sims = some ((sims.map simValue).sum) := by
  unfold sumSimilarities
  rw [foldl_jsAddR sims h 0, zero_add]

theorem fallbackSims_length (q : String) (chunks : List EmbeddedChunk) :
    (fallbackSims q chunks).length = chunks.length := by
  simp [fallbackSims]

/-- The similarity of every fallback entry is the keyword-overlap quotient
of its own chunk, with the query tokens counted with multiplicity. -/
theorem fallbackSims_mem {q : String} {chunks : List EmbeddedChunk}
    {r : SimilarityResult} (hr : r ∈ fallbackSims q chunks) :
    r.similarity = jsDivR
      (((jsTokenize q).filter (fun w => (jsTokenize r.chunk.content).contains w)).length : ℝ)
      ((max (jsTokenize q).length (jsTokenize r.chunk.content).length : ℕ) : ℝ) := by
  simp only [fallbackSims] at hr
  obtain ⟨c, _, rfl⟩ := List.mem_map.1 hr
  rfl

/-- With at least one query token no fallback similarity is `NaN`. -/
theorem fallbackSims_isSome {q : String} (hq : jsTokenize q ≠ [])
    {chunks : List EmbeddedChunk} :
    ∀ r ∈ fallbackSims q chunks, r.similarity.isSome := by
  intro r hr
  simp only [fallbackSims] at hr
  obtain ⟨c, _, rfl⟩ := List.mem_map.1 hr
  simp only [jsDivR]
  rw [if_neg]
  · rfl
  · have hlen : 0 < (jsTokenize q).length := List.length_pos.2 hq
    have : 0 < max (jsTokenize q).length (jsTokenize c.content).length :=
      lt_of_lt_of_le hlen (le_max_left _ _)
    exact Nat.cast_ne_zero.2 (Nat.pos_iff_ne_zero.1 this)

theorem searchCmp_trans : ∀ a b c, searchCmp a b → searchCmp b c → searchCmp a c := by
  intro a b c hab hbc
  simp only [searchCmp, decide_eq_true_eq] at *
  exact le_trans hbc hab

theorem searchCmp_total : ∀ a b, searchCmp a b || searchCmp b a := by
  intro a b
  simp only [searchCmp]
  rcases le_total (simValue a) (simValue b) with h | h <;> simp [h]

/-- The results field of the primary-path record, unfolded. -/
theorem assemblePrimary_results (n topK : Nat) (threshold : ℝ)
    (sims : List SimilarityResult) :
    (assemblePrimary n topK threshold sims).results =
      ((sims.filter (fun r => jsGeB r.similarity threshold)).mergeSort searchCmp).take topK :=
  rfl

/-- The average field of the primary-path record, unfolded. -/
theorem assemblePrimary_avg (n topK : Nat) (threshold : ℝ)
    (sims : List SimilarityResult) :
    (assemblePrimary n topK threshold sims).averageSimilarity =
      (if 0 < sims.length then
        (sumSimilarities sims).map (fun s : ℝ => s / (sims.length : ℝ))
       else some 0) :=
  rfl

/-- The results field of the fallback record, unfolded. -/
theorem fallbackSearch_results (q : String) (chunks : List EmbeddedChunk) (topK : Nat) :
    (fallbackSimilaritySearch q chunks topK).results =
      (((fallbackSims q chunks).filter
          (fun r => jsGtB r.similarity (1 / 100))).mergeSort searchCmp).take topK :=
  rfl

/-- The average field of the fallback record, unfolded. -/
theorem fallbackSearch_avg (q : String) (chunks : List EmbeddedChunk) (topK : Nat) :
    (fallbackSimilaritySearch q chunks topK).averageSimilarity =
      (match sumSimilarities (fallbackSims q chunks) with
       | none => none
       | some s =>
         if ((fallbackSims q chunks).length : ℝ) = 0 then none
         else some (s / (fallbackSims q chunks).length)) :=
  rfl

/-- The `try` body, unfolded on a successful similarity loop. -/
theorem okResults_findSimilarWithVector {qv : List ℝ} {chunks : List EmbeddedChunk}
    {sims : List SimilarityResult} (topK : Nat) (threshold : ℝ)
    (hp : primarySimilarities qv chunks = .ok sims) :
    okResults (findSimilarWithVector qv chunks topK threshold) =
      (assemblePrimary chunks.length topK threshold sims).results := by
  unfold findSimilarWithVector
  rw [hp]
  rfl

/-- Evaluation of the fallback search on the concrete query `"cats cats"`
against a single chunk with content `"cats here"` (any embedding): both
query occurrences of `"cats"` are counted, giving similarity
`2 / max 2 2 = 1`, which passes the fixed `> 0.01` filter. -/
theorem fallbackSearch_cats_eval (emb : List ℝ) :
    (fallbackSimilaritySearch "cats cats" [⟨"cats here", 2, emb⟩] 5).results =
      [⟨⟨"cats here", 2, emb⟩, some 1, some 1, some ["cats", "cats"]⟩] := by
  have hrel : calculateRelevanceScore 1 ⟨"cats here", 2, emb⟩ = 1 := by
    unfold calculateRelevanceScore
    rw [show "cats here".length = 9 from by decide]
    norm_num [min_def]
  have hsims : fallbackSims "cats cats" [⟨"cats here", 2, emb⟩] =
      [⟨⟨"cats here", 2, emb⟩, some 1, some 1, some ["cats", "cats"]⟩] := by
    unfold fallbackSims
    simp only [List.map_cons, List.map_nil]
    rw [show jsTokenize "cats cats" = ["cats", "cats"] from by decide]
    rw [show jsTokenize "cats here" = ["cats", "here"] from by decide]
    rw [show List.filter (fun w => (["cats", "here"].contains w))
        ["cats", "cats"] = ["cats", "cats"] from by decide]
    rw [show jsDivR ((["cats", "cats"].length : ℕ) : ℝ)
        ((max (["cats", "cats"].length) (["cats", "here"].length) : ℕ) : ℝ) = some 1 from by
      norm_num [jsDivR]]
    simp [hrel]
  have hfilter : List.filter (fun r => jsGtB r.similarity (1 / 100))
      [(⟨⟨"cats here", 2, emb⟩, some 1, some 1, some ["cats", "cats"]⟩ : SimilarityResult)] =
      [⟨⟨"cats here", 2, emb⟩, some 1, some 1, some ["cats", "cats"]⟩] := by
    rw [List.filter_cons, if_pos (by norm_num [jsGtB]), List.filter_nil]
  unfold fallbackSimilaritySearch
  simp only [hsims, hfilter]
  simp

/-! ## Claim C2 — threshold 1.01 and the two search paths -/

/-- C2 (counterexample): with `threshold = 1.01` the claim promises an
empty result list even when the primary path fails. Here the query's
single-batch TF-IDF vector has dimension 1 while the chunk embedding has
dimension 3, so the cosine call throws, the engine degrades to the keyword
fallback — which never receives the threshold — and the result list is
not empty. -/
theorem findSimilarChunks_threshold_above_one_nonempty :
    (findSimilarChunks "cats cats" [⟨"cats here", 2, [1, 2, 3]⟩] 5 (101 / 100)).results
      ≠ [] := by
  have hvocab : tfidfVocab ["cats cats"] = ["cats"] := by decide
  have hemb : generateFallbackEmbeddings ["cats cats"] =
      [⟨"cats cats", List.replicate (tfidfVocab ["cats cats"]).length 0, "fallback"⟩] := by
    unfold generateFallbackEmbeddings
    rw [calculateTFIDF_single]
    rfl
  have herr : findSimilarWithVector (List.replicate (tfidfVocab ["cats cats"]).length 0)
      [⟨"cats here", 2, [1, 2, 3]⟩] 5 (101 / 100) =
      .error "Vectors must have the same length" := by
    unfold findSimilarWithVector primarySimilarities
    rw [if_neg (by simp)]
    rw [cosine_eq_error_of_length_ne (by simp [hvocab])]
    rfl
  unfold findSimilarChunks
  rw [hemb]
  simp only []
  rw [herr]
  rw [fallbackSearch_cats_eval [1, 2, 3]]
  simp

/-- C2 (amended): with any threshold above 1 the primary path itself
returns an empty result list (every cosine similarity is at most 1 by
Cauchy-Schwarz, and the filter keeps only `similarity >= threshold`); the
keyword fallback, reached when the primary path throws, never receives the
caller's threshold — each of its results only passed the fixed `> 0.01`
filter, so after degradation the result list can be non-empty. -/
theorem primary_empty_fallback_fixed_threshold :
    (∀ (queryVector : List ℝ) (chunks : List EmbeddedChunk) (topK : Nat) (threshold : ℝ),
      1 < threshold →
      okResults (findSimilarWithVector queryVector chunks topK threshold) = []) ∧
    (∀ (query : String) (chunks : List EmbeddedChunk) (topK : Nat),
      ∀ r ∈ (fallbackSimilaritySearch query chunks topK).results,
        jsGtB r.similarity (1 / 100) = true) := by
  constructor
  · intro qv chunks topK threshold hth
    cases hp : primarySimilarities qv chunks with
    | error e =>
      unfold findSimilarWithVector
      rw [hp]
      rfl
    | ok sims =>
      rw [okResults_findSimilarWithVector topK threshold hp, assemblePrimary_results]
      have hfilter : sims.filter (fun r => jsGeB r.similarity threshold) = [] := by
        rw [List.filter_eq_nil_iff]
        intro a ha
        obtain ⟨s, hs, hs1⟩ := primarySimilarities_sims hp a ha
        simp only [jsGeB, hs, decide_eq_true_eq]
        intro hc
        linarith
      rw [hfilter]
      simp
  · intro q chunks topK r hr
    rw [fallbackSearch_results] at hr
    have h1 := (List.take_sublist _ _).subset hr
    have h2 := List.mem_mergeSort.1 h1
    exact (List.mem_filter.1 h2).2

/-- C2 witness: at threshold 2 the primary path on a matching
one-dimensional embedding returns no results, while the concrete fallback
result for the query `"cats cats"` passed the fixed `0.01` filter. -/
theorem primary_empty_fallback_fixed_threshold_witness :
    ((1:ℝ) < 2 ∧ okResults (findSimilarWithVector [1] [⟨"t", 1, [1]⟩] 5 2) = []) ∧
    ((⟨⟨"cats here", 2, []⟩, some 1, some 1, some ["cats", "cats"]⟩ : SimilarityResult) ∈
        (fallbackSimilaritySearch "cats cats" [⟨"cats here", 2, []⟩] 5).results ∧
      jsGtB (⟨⟨"cats here", 2, []⟩, some 1, some 1,
        some ["cats", "cats"]⟩ : SimilarityResult).similarity (1 / 100) = true) := by
  have hmem : (⟨⟨"cats here", 2, []⟩, some 1, some 1,
      some ["cats", "cats"]⟩ : SimilarityResult) ∈
      (fallbackSimilaritySearch "cats cats" [⟨"cats here", 2, []⟩] 5).results := by
    rw [fallbackSearch_cats_eval []]
    exact List.mem_singleton_self _
  exact ⟨⟨by norm_num,
      primary_empty_fallback_fixed_threshold.1 [1] [⟨"t", 1, [1]⟩] 5 2 (by norm_num)⟩,
    hmem, primary_empty_fallback_fixed_threshold.2 "cats cats" [⟨"cats here", 2, []⟩] 5 _ hmem⟩

/-! ## Claim C4 — averageSimilarity as a pre-filter mean -/

/-- C4 (counterexample): the claim says `averageSimilarity` is never `NaN`,
including for an empty chunk list, on both paths; but
`fallbackSimilaritySearch` divides by `similarities.length` without a
guard, so on an empty chunk list it returns the JavaScript `0 / 0 = NaN`
(modelled `none`), not 0. -/
theorem fallback_avg_NaN_on_empty :
    (fallbackSimilaritySearch "alpha" [] 5).averageSimilarity = none ∧
    (fallbackSimilaritySearch "alpha" [] 5).averageSimilarity ≠ some 0 := by
  have h : (fallbackSimilaritySearch "alpha" [] 5).averageSimilarity = none := by
    rw [fallbackSearch_avg]
    simp [fallbackSims, sumSimilarities]
  exact ⟨h, by rw [h]; simp⟩

/-- C4 (amended): on the primary path `averageSimilarity` is the guarded
mean of all computed similarities — 0 when no chunk had an embedding, the
arithmetic mean (pre-filter, pre-truncation) otherwise, never `NaN`. On
the fallback path the same mean is returned provided the chunk list is
non-empty (and the query has at least one token, so that no individual
similarity is `NaN`); the empty chunk list produces `NaN` there. -/
theorem averageSimilarity_mean_amended :
    (∀ (queryVector : List ℝ) (chunks : List EmbeddedChunk) (sims : List SimilarityResult),
      primarySimilarities queryVector chunks = .ok sims →
      ∀ (n topK : Nat) (threshold : ℝ),
        (assemblePrimary n topK threshold sims).averageSimilarity =
          some (if sims.length = 0 then 0
                else (sims.map simValue).sum / (sims.length : ℝ))) ∧
    (∀ (query : String) (chunks : List EmbeddedChunk) (topK : Nat),
      chunks ≠ [] → jsTokenize query ≠ [] →
      (fallbackSimilaritySearch query chunks topK).averageSimilarity =
        some (((fallbackSims query chunks).map simValue).sum / (chunks.length : ℝ))) := by
  constructor
  · intro qv chunks sims hp n topK threshold
    have hall : ∀ r ∈ sims, r.similarity.isSome := by
      intro r hr
      obtain ⟨s, hs, -⟩ := primarySimilarities_sims hp r hr
      simp [hs]
    rw [assemblePrimary_avg]
    by_cases h0 : sims.length = 0
    · rw [if_neg (by omega), if_pos h0]
    · rw [if_pos (Nat.pos_of_ne_zero h0), if_neg h0, sumSimilarities_eq hall]
      rfl
  · intro q chunks topK hchunks hq
    have hsum := sumSimilarities_eq (@fallbackSims_isSome q hq chunks)
    rw [fallbackSearch_avg, hsum]
    have hlen : ((fallbackSims q chunks).length : ℝ) ≠ 0 := by
      rw [fallbackSims_length]
      exact Nat.cast_ne_zero.2 (fun h => hchunks (List.length_eq_zero.1 h))
    simp only []
    rw [if_neg hlen, fallbackSims_length]

/-- C4 witness: the primary mean over an empty chunk list is the guarded 0,
and the fallback mean over the non-empty cats corpus is the stated
pre-filter mean. -/
theorem averageSimilarity_mean_amended_witness :
    (primarySimilarities [1] [] = .ok [] ∧
      (assemblePrimary 0 5 (3 / 10) []).averageSimilarity =
        some (if ([] : List SimilarityResult).length = 0 then 0
              else (([] : List SimilarityResult).map simValue).sum /
                ((([] : List SimilarityResult).length : ℕ) : ℝ))) ∧
    (([⟨"cats here", 2, []⟩] : List EmbeddedChunk) ≠ [] ∧
      jsTokenize "cats cats" ≠ [] ∧
      (fallbackSimilaritySearch "cats cats" [⟨"cats here", 2, []⟩] 5).averageSimilarity =
        some (((fallbackSims "cats cats" [⟨"cats here", 2, []⟩]).map simValue).sum /
          (([⟨"cats here", 2, []⟩] : List EmbeddedChunk).length : ℝ))) := by
  refine ⟨⟨rfl, averageSimilarity_mean_amended.1 [1] [] [] rfl 0 5 (3 / 10)⟩,
    by simp, by decide,
    averageSimilarity_mean_amended.2 "cats cats" [⟨"cats here", 2, []⟩] 5 (by simp) (by decide)⟩

/-! ## Claim C5 — the keyword-overlap formula -/

/-- C5 (counterexample): the claim's numerator is the number of *distinct*
shared tokens, but `commonWords = queryWords.filter(...)` keeps query
tokens with multiplicity: for the query `"cats cats"` against the chunk
`"cats here"` the code returns similarity `2 / 2 = 1` while the spec's
distinct-intersection formula gives `1 / 2`. -/
theorem fallback_sim_counts_multiplicity :
    ((fallbackSimilaritySearch "cats cats" [⟨"cats here", 2, []⟩] 5).results.map
        SimilarityResult.similarity) = [some 1] ∧
    specFallbackSimilarity "cats cats" "cats here" = 1 / 2 ∧
    ((1 : ℝ)) ≠ 1 / 2 := by
  refine ⟨?_, ?_, by norm_num⟩
  · rw [fallbackSearch_cats_eval []]
    rfl
  · unfold specFallbackSimilarity
    rw [show jsTokenize "cats cats" = ["cats", "cats"] from by decide]
    rw [show jsTokenize "cats here" = ["cats", "here"] from by decide]
    rw [show dedupFirst []
        (List.filter (fun w => (["cats", "here"].contains w)) ["cats", "cats"]) =
        ["cats"] from by decide]
    norm_num

/-- C5 (amended): every result of the fallback search carries the
similarity `commonWords.length / max(queryTokens.length, chunkTokens.length)`
where `commonWords` keeps the query tokens *with multiplicity* (filtered by
membership in the chunk's token list, both token lists produced by the same
lowercase/strip/split/drop-short pipeline), each result passed the strict
fixed filter `similarity > 0.01` (the quotient is `NaN` when both token
lists are empty, and such entries never pass), and the record is tagged
`method: 'fallback'`. -/
theorem fallback_search_amended :
    ∀ (query : String) (chunks : List EmbeddedChunk) (topK : Nat),
      (∀ r ∈ (fallbackSimilaritySearch query chunks topK).results,
        r.similarity = jsDivR
          (((jsTokenize query).filter
              (fun w => (jsTokenize r.chunk.content).contains w)).length : ℝ)
          ((max (jsTokenize query).length (jsTokenize r.chunk.content).length : ℕ) : ℝ) ∧
        jsGtB r.similarity (1 / 100) = true) ∧
      (fallbackSimilaritySearch query chunks topK).method = some "fallback" := by
  intro q chunks topK
  constructor
  · intro r hr
    rw [fallbackSearch_results] at hr
    have h1 := (List.take_sublist _ _).subset hr
    have h2 := List.mem_mergeSort.1 h1
    exact ⟨fallbackSims_mem (List.mem_of_mem_filter h2), (List.mem_filter.1 h2).2⟩
  · rfl

/-- C5 witness: the concrete cats result is in the returned list, carries
the multiplicity-counting quotient `2 / 2`, passed the fixed filter, and
the record is tagged as the fallback method. -/
theorem fallback_search_amended_witness :
    ((⟨⟨"cats here", 2, []⟩, some 1, some 1, some ["cats", "cats"]⟩ : SimilarityResult) ∈
        (fallbackSimilaritySearch "cats cats" [⟨"cats here", 2, []⟩] 5).results) ∧
    ((⟨⟨"cats here", 2, []⟩, some 1, some 1,
        some ["cats", "cats"]⟩ : SimilarityResult).similarity = jsDivR
        (((jsTokenize "cats cats").filter
            (fun w => (jsTokenize "cats here").contains w)).length : ℝ)
        ((max (jsTokenize "cats cats").length (jsTokenize "cats here").length : ℕ) : ℝ) ∧
      jsGtB (⟨⟨"cats here", 2, []⟩, some 1, some 1,
        some ["cats", "cats"]⟩ : SimilarityResult).similarity (1 / 100) = true) ∧
    (fallbackSimilaritySearch "cats cats" [⟨"cats here", 2, []⟩] 5).method =
      some "fallback" := by
  have hmem : (⟨⟨"cats here", 2, []⟩, some 1, some 1,
      some ["cats", "cats"]⟩ : SimilarityResult) ∈
      (fallbackSimilaritySearch "cats cats" [⟨"cats here", 2, []⟩] 5).results := by
    rw [fallbackSearch_cats_eval []]
    exact List.mem_singleton_self _
  exact ⟨hmem,
    (fallback_search_amended "cats cats" [⟨"cats here", 2, []⟩] 5).1 _ hmem,
    (fallback_search_amended "cats cats" [⟨"cats here", 2, []⟩] 5).2⟩

/-! ## Claim C8 — topK bound, descending order, stability -/

/-- C8 (confirmed): on both search paths the returned results are the
first `topK` of the stable descending sort of the filtered similarity
list, so the result count never exceeds `topK` and the list is
non-increasing by similarity; and the sort is stable — any pair already in
descending (or tied) order in the filtered list (which lists the chunks in
their original order) keeps its relative order in the sorted list. -/
theorem results_sorted_bounded_stable :
    (∀ (n topK : Nat) (threshold : ℝ) (sims : List SimilarityResult),
      (assemblePrimary n topK threshold sims).results =
        ((sims.filter (fun r => jsGeB r.similarity threshold)).mergeSort searchCmp).take
          topK ∧
      (assemblePrimary n topK threshold sims).results.length ≤ topK ∧
      (assemblePrimary n topK threshold sims).results.Pairwise
        (fun a b => simValue b ≤ simValue a) ∧
      (∀ a b, List.Sublist [a, b] (sims.filter (fun r => jsGeB r.similarity threshold)) →
        simValue b ≤ simValue a →
        List.Sublist [a, b] ((sims.filter
          (fun r => jsGeB r.similarity threshold)).mergeSort searchCmp))) ∧
    (∀ (query : String) (chunks : List EmbeddedChunk) (topK : Nat),
      (fallbackSimilaritySearch query chunks topK).results =
        (((fallbackSims query chunks).filter
            (fun r => jsGtB r.similarity (1 / 100))).mergeSort searchCmp).take topK ∧
      (fallbackSimilaritySearch query chunks topK).results.length ≤ topK ∧
      (fallbackSimilaritySearch query chunks topK).results.Pairwise
        (fun a b => simValue b ≤ simValue a) ∧
      (∀ a b, List.Sublist [a, b] ((fallbackSims query chunks).filter
            (fun r => jsGtB r.similarity (1 / 100))) →
        simValue b ≤ simValue a →
        List.Sublist [a, b] (((fallbackSims query chunks).filter
            (fun r => jsGtB r.similarity (1 / 100))).mergeSort searchCmp))) := by
  have hlen : ∀ (l : List SimilarityResult) (k : Nat), (l.take k).length ≤ k := by
    intro l k
    rw [List.length_take]
    exact min_le_left _ _
  have hsorted : ∀ (l : List SimilarityResult) (k : Nat),
      ((l.mergeSort searchCmp).take k).Pairwise (fun a b => simValue b ≤ simValue a) := by
    intro l k
    have hs := List.sorted_mergeSort searchCmp_trans searchCmp_total l
    have hp := hs.sublist (List.take_sublist k _)
    exact hp.imp (fun h => by simpa [searchCmp] using h)
  have hstable : ∀ (l : List SimilarityResult) (a b : SimilarityResult),
      List.Sublist [a, b] l → simValue b ≤ simValue a →
      List.Sublist [a, b] (l.mergeSort searchCmp) := by
    intro l a b hab hle
    exact List.pair_sublist_mergeSort searchCmp_trans searchCmp_total
      (by simp [searchCmp, hle]) hab
  constructor
  · intro n topK threshold sims
    exact ⟨assemblePrimary_results n topK threshold sims,
      assemblePrimary_results n topK threshold sims ▸ hlen _ _,
      assemblePrimary_results n topK threshold sims ▸ hsorted _ _,
      fun a b => hstable _ a b⟩
  · intro q chunks topK
    exact ⟨fallbackSearch_results q chunks topK,
      fallbackSearch_results q chunks topK ▸ hlen _ _,
      fallbackSearch_results q chunks topK ▸ hsorted _ _,
      fun a b => hstable _ a b⟩

/-- C8 witness: for a concrete two-element similarity list with tied
similarities, both hypotheses of the stability part hold and the tied pair
keeps its order through the sort; the result list is bounded by `topK`. -/
theorem results_sorted_bounded_stable_witness :
    (List.Sublist [(⟨⟨"t", 1, []⟩, some 1, some 1, none⟩ : SimilarityResult),
        ⟨⟨"u", 1, []⟩, some 1, some 1, none⟩]
      ([(⟨⟨"t", 1, []⟩, some 1, some 1, none⟩ : SimilarityResult),
        ⟨⟨"u", 1, []⟩, some 1, some 1, none⟩].filter
          (fun r => jsGeB r.similarity (1 / 2)))) ∧
    simValue (⟨⟨"u", 1, []⟩, some 1, some 1, none⟩ : SimilarityResult) ≤
      simValue (⟨⟨"t", 1, []⟩, some 1, some 1, none⟩ : SimilarityResult) ∧
    (List.Sublist [(⟨⟨"t", 1, []⟩, some 1, some 1, none⟩ : SimilarityResult),
        ⟨⟨"u", 1, []⟩, some 1, some 1, none⟩]
      (([(⟨⟨"t", 1, []⟩, some 1, some 1, none⟩ : SimilarityResult),
        ⟨⟨"u", 1, []⟩, some 1, some 1, none⟩].filter
          (fun r => jsGeB r.similarity (1 / 2))).mergeSort searchCmp)) ∧
    (assemblePrimary 2 3 (1 / 2)
      [(⟨⟨"t", 1, []⟩, some 1, some 1, none⟩ : SimilarityResult),
        ⟨⟨"u", 1, []⟩, some 1, some 1, none⟩]).results.length ≤ 3 := by
  have hfilter : ([(⟨⟨"t", 1, []⟩, some 1, some 1, none⟩ : SimilarityResult),
      ⟨⟨"u", 1, []⟩, some 1, some 1, none⟩].filter
        (fun r => jsGeB r.similarity (1 / 2))) =
      [(⟨⟨"t", 1, []⟩, some 1, some 1, none⟩ : SimilarityResult),
        ⟨⟨"u", 1, []⟩, some 1, some 1, none⟩] := by
    rw [List.filter_cons, if_pos (by norm_num [jsGeB]), List.filter_cons,
      if_pos (by norm_num [jsGeB]), List.filter_nil]
  have hsub : List.Sublist [(⟨⟨"t", 1, []⟩, some 1, some 1, none⟩ : SimilarityResult),
      ⟨⟨"u", 1, []⟩, some 1, some 1, none⟩]
      ([(⟨⟨"t", 1, []⟩, some 1, some 1, none⟩ : SimilarityResult),
        ⟨⟨"u", 1, []⟩, some 1, some 1, none⟩].filter
          (fun r => jsGeB r.similarity (1 / 2))) := by
    rw [hfilter]
  have hle : simValue (⟨⟨"u", 1, []⟩, some 1, some 1, none⟩ : SimilarityResult) ≤
      simValue (⟨⟨"t", 1, []⟩, some 1, some 1, none⟩ : SimilarityResult) := le_refl _
  exact ⟨hsub, hle,
    (results_sorted_bounded_stable.1 2 3 (1 / 2) _).2.2.2 _ _ hsub hle,
    (results_sorted_bounded_stable.1 2 3 (1 / 2) _).2.1⟩

end ChatPDF
